import Mathlib

/-!
Formal model of the nexus_binance trading core: the `IndicatorCalculator`
(technical indicators over price bars) and the `PositionTracker` (open/closed
position ledger with pyramid levels, erosion/underwater/collapse risk gates,
persistence and performance statistics).

Modelling conventions:
* JavaScript numbers are embedded as `ℚ`.  All arithmetic in the source acts
  on finite values except where noted; where the source can produce a
  non-finite value (NaN from `0/0`) the embedding uses `Option ℚ` with `none`
  standing for the non-finite result.
* Timestamps (`Date.now()`) are passed in explicitly as a `now : ℚ` argument.
* The `Map` of open positions is modelled as an association list with the
  `Map.get` / `Map.set` (replace-in-place or append) / `Map.delete` semantics.
* `savePositions` serialises `{open, closed, timestamp}` to disk; the model
  records the written document (open values and closed list; the timestamp is
  not relevant to any property) in a `persisted` field, assuming the write
  succeeds (the source catches and logs disk errors).
* Logger calls and the bounded activity feed are elided: no verified property
  reads them, and they are write-only from the ledger's perspective.
-/

namespace NexusBinance

/-! ## IndicatorCalculator (calculateRSI .. calculateAllIndicators) -/

/-- A price bar/candle. The source's `open` field is named `openP` because
`open` is a Lean keyword; it is never read by the indicator code. -/
structure Candle where
  timestamp : ℚ
  openP : ℚ
  high : ℚ
  low : ℚ
  close : ℚ
  volume : ℚ
deriving DecidableEq

/-- MACD result record `{line, signal, histogram}`. -/
structure MACDOut where
  line : ℚ
  signal : ℚ
  histogram : ℚ
deriving DecidableEq

/-- The `Indicators` snapshot returned by `calculateAllIndicators`. -/
structure Indicators where
  rsi : ℚ
  macd : MACDOut
  adx : ℚ
  volumeRatio : ℚ
  momentum1h : ℚ
  momentum4h : ℚ
  recentHigh : ℚ
  recentLow : ℚ
  ema200 : ℚ
deriving DecidableEq

/-- Successive differences `closes[i] - closes[i-1]`, i = 1 .. length-1. -/
def deltasOf : List ℚ → List ℚ
  | a :: b :: rest => (b - a) :: deltasOf (b :: rest)
  | _ => []

/-- Positive part of a delta (a gain), as in the RSI loops. -/
def gainOf (d : ℚ) : ℚ := if 0 < d then d else 0

/-- Absolute value of a negative delta (a loss), as in the RSI loops. -/
def lossOf (d : ℚ) : ℚ := if d < 0 then -d else 0

/-- One step of Wilder smoothing of (avgGain, avgLoss):
`avg = (avg*(period-1) + current) / period`. -/
def wilderStep (period : Nat) (avg : ℚ × ℚ) (d : ℚ) : ℚ × ℚ :=
  ((avg.1 * ((period : ℚ) - 1) + gainOf d) / period,
   (avg.2 * ((period : ℚ) - 1) + lossOf d) / period)

/-- Wilder-smoothed (avgGain, avgLoss): seeded with the arithmetic means over
the first `period` deltas, then smoothed over the remaining deltas. -/
def wilderAvgs (deltas : List ℚ) (period : Nat) : ℚ × ℚ :=
  (deltas.drop period).foldl (wilderStep period)
    (((deltas.take period).map gainOf).sum / period,
     ((deltas.take period).map lossOf).sum / period)

/-- `IndicatorCalculator.calculateRSI`.  Returns the neutral default 50 when
fewer than `period + 1` closes are supplied, 100 when the smoothed average
loss is exactly zero, and otherwise `100 - 100/(1+rs)` clamped to [0,100]. -/
def calculateRSI (closes : List ℚ) (period : Nat) : ℚ :=
  if closes.length < period + 1 then 50
  else
    let avgs := wilderAvgs (deltasOf closes) period
    if avgs.2 = 0 then 100
    else
      let rs := avgs.1 / avgs.2
      let rsi := 100 - 100 / (1 + rs)
      min 100 (max 0 rsi)

/-- `IndicatorCalculator.calculateEMA`: 0 on the empty list, the plain mean
when there are at most `period` values, otherwise an SMA-seeded exponential
moving average with multiplier `2/(period+1)`. -/
def calculateEMA (closes : List ℚ) (period : Nat) : ℚ :=
  if closes.length = 0 then 0
  else if closes.length ≤ period then closes.sum / closes.length
  else
    let multiplier := 2 / ((period : ℚ) + 1)
    let seed := (closes.take period).sum / period
    (closes.drop period).foldl (fun ema c => c * multiplier + ema * (1 - multiplier)) seed

/-- `IndicatorCalculator.calculateMACD`.  The guard `closes.length < slow +
signal - 1` of the source is integer arithmetic; it is written here as
`closes.length + 1 < slow + signal`, which agrees with it on all of the
source's call sites (and avoids ℕ subtraction truncation). -/
def calculateMACD (closes : List ℚ) (fast slow signal : Nat) : MACDOut :=
  if closes.length + 1 < slow + signal then ⟨0, 0, 0⟩
  else
    let macdLine := calculateEMA closes fast - calculateEMA closes slow
    let macdValues := ((List.range closes.length).drop (slow - 1)).map
      (fun i => calculateEMA (closes.take (i + 1)) fast - calculateEMA (closes.take (i + 1)) slow)
    let signalLine := calculateEMA macdValues signal
    ⟨macdLine, signalLine, macdLine - signalLine⟩

/-- Per-bar (trueRange, plusDM, minusDM) rows of `calculateADX`, walking the
three arrays in lockstep (the source indexes `highs[i]`, `lows[i]`,
`closes[i-1]` for i = 1 .. closes.length-1; the arrays always have equal
length at the call site). -/
def adxRows : List ℚ → List ℚ → List ℚ → List (ℚ × ℚ × ℚ)
  | h0 :: h1 :: hs, l0 :: l1 :: ls, c0 :: _c1 :: cs =>
    let tr := max (h1 - l1) (max |h1 - c0| |l1 - c0|)
    let upMove := h1 - h0
    let downMove := l0 - l1
    let plusDM := if downMove < upMove ∧ 0 < upMove then upMove else 0
    let minusDM := if upMove < downMove ∧ 0 < downMove then downMove else 0
    (tr, plusDM, minusDM) :: adxRows (h1 :: hs) (l1 :: ls) (_c1 :: cs)
  | _, _, _ => []

/-- Running state of the ADX Wilder-smoothing loop. -/
structure ADXState where
  sTR : ℚ
  sPDM : ℚ
  sMDM : ℚ
  dxValues : List ℚ

/-- One iteration of the ADX loop: Wilder smoothing
`smoothed = smoothed - smoothed/period + current`, then a DX sample unless
the smoothed true range is zero (that bar is skipped). -/
def adxStep (period : Nat) (st : ADXState) (row : ℚ × ℚ × ℚ) : ADXState :=
  let sTR := st.sTR - st.sTR / period + row.1
  let sPDM := st.sPDM - st.sPDM / period + row.2.1
  let sMDM := st.sMDM - st.sMDM / period + row.2.2
  if sTR = 0 then ⟨sTR, sPDM, sMDM, st.dxValues⟩
  else
    let plusDI := sPDM / sTR * 100
    let minusDI := sMDM / sTR * 100
    let diSum := plusDI + minusDI
    let dx := if diSum = 0 then 0 else |plusDI - minusDI| / diSum * 100
    ⟨sTR, sPDM, sMDM, st.dxValues ++ [dx]⟩

/-- JavaScript `array.slice(-period)`: the last `period` elements for
`period > 0` (the whole array when it is shorter), and — because
`slice(-0) = slice(0)` — the whole array for `period = 0`. -/
def sliceLast {α : Type} (l : List α) (period : Nat) : List α :=
  if period = 0 then l else l.drop (l.length - period)

/-- `IndicatorCalculator.calculateADX`.  Returns the assumed-moderate default
20 with fewer than `2*period + 1` bars or when no DX sample was produced;
otherwise the mean of the last `period` DX values, clamped to [0,100].  The
source's `isNaN(adx) ? 20 : adx` guard has no counterpart here: in `ℚ` the
mean of a nonempty list of rationals is a rational. -/
def calculateADX (highs lows closes : List ℚ) (period : Nat) : ℚ :=
  if highs.length < period * 2 + 1 then 20
  else
    let rows := adxRows highs lows closes
    let seed : ADXState :=
      ⟨((rows.take period).map (fun r => r.1)).sum,
       ((rows.take period).map (fun r => r.2.1)).sum,
       ((rows.take period).map (fun r => r.2.2)).sum, []⟩
    let final := (rows.drop period).foldl (adxStep period) seed
    if final.dxValues = [] then 20
    else
      let recentDX := sliceLast final.dxValues period
      let adx := recentDX.sum / recentDX.length
      min 100 (max 0 adx)

/-- Division as JavaScript computes it in `calculateSMA`: `none` models the
non-finite result of dividing by zero (in particular `0/0 = NaN` for the
empty list). -/
def jsDiv (a b : ℚ) : Option ℚ := if b = 0 then none else some (a / b)

/-- `IndicatorCalculator.calculateSMA`: mean of all values when fewer than
`period` are available (NaN — `none` — for the empty list, since the source
computes `0 / 0` there), otherwise the sum of the last `period` values
divided by `period`. -/
def calculateSMA (values : List ℚ) (period : Nat) : Option ℚ :=
  if values.length < period then jsDiv values.sum values.length
  else jsDiv (sliceLast values period).sum period

/-- `IndicatorCalculator.calculateVolumeRatio`: last volume over
`SMA(volumes, min(period, len))`, with neutral default 1.0 for an empty
volume list or a non-positive (or non-finite) average. -/
def calculateVolumeRatio (volumes : List ℚ) (period : Nat) : ℚ :=
  if volumes.length = 0 then 1
  else
    let currentVolume := volumes.getD (volumes.length - 1) 0
    match calculateSMA volumes (min period volumes.length) with
    | some avgVolume => if 0 < avgVolume then currentVolume / avgVolume else 1
    | none => 1

/-- `IndicatorCalculator.calculateMomentum`: fractional change between the
latest close and the close `period` bars earlier; 0 on insufficient data or
a zero prior close. -/
def calculateMomentum (closes : List ℚ) (period : Nat) : ℚ :=
  if closes.length < period + 1 then 0
  else
    let currentClose := closes.getD (closes.length - 1) 0
    let previousClose := closes.getD (closes.length - 1 - period) 0
    if previousClose ≠ 0 then (currentClose - previousClose) / previousClose else 0

/-- Maximum of a list of rationals, as `Math.max(...values)` on a nonempty
array (every call site guards nonemptiness). -/
def jsMax : List ℚ → ℚ
  | [] => 0
  | h :: t => t.foldl max h

/-- Minimum of a list of rationals, as `Math.min(...values)` on a nonempty
array. -/
def jsMin : List ℚ → ℚ
  | [] => 0
  | h :: t => t.foldl min h

/-- `IndicatorCalculator.calculateAllIndicators`: the all-neutral-default
snapshot on an empty candle list, otherwise the orchestrated per-indicator
computations of the source. -/
def calculateAllIndicators (candles : List Candle) : Indicators :=
  if candles.length = 0 then
    ⟨50, ⟨0, 0, 0⟩, 20, 1, 0, 0, 0, 0, 0⟩
  else
    let closes := candles.map (fun c => c.close)
    let highs := candles.map (fun c => c.high)
    let lows := candles.map (fun c => c.low)
    let volumes := candles.map (fun c => c.volume)
    let recentCandles := sliceLast candles 20
    let recentHigh := jsMax (recentCandles.map (fun c => c.high))
    let recentLow := jsMin (recentCandles.map (fun c => c.low))
    let momentum1h := calculateMomentum closes (min 4 (closes.length - 1))
    let momentum4h := calculateMomentum closes (min 16 (closes.length - 1))
    ⟨calculateRSI closes 14,
     calculateMACD closes 12 26 9,
     calculateADX highs lows closes 14,
     calculateVolumeRatio volumes 20,
     momentum1h, momentum4h, recentHigh, recentLow,
     calculateEMA closes 200⟩

/-! ## PositionTracker data model -/

/-- Market regime classification captured at entry. -/
inductive Regime where
  | choppy
  | weak
  | moderate
  | strong
deriving DecidableEq

/-- Position status; the source's string literal 'open' is rendered `opened`
because `open` is a Lean keyword. -/
inductive PosStatus where
  | opened
  | closed
deriving DecidableEq

/-- Pyramid-level status ('active' | 'closed'). -/
inductive LevelStatus where
  | active
  | closed
deriving DecidableEq

/-- A pyramid add (L1 or L2) attached to a position. -/
structure PyramidLevel where
  level : Nat
  entryPrice : ℚ
  volume : ℚ
  entryTime : ℚ
  triggerProfitPct : ℚ
  aiConfidence : ℚ
  status : LevelStatus
deriving DecidableEq

/-- The central mutable `Position` entity. -/
structure Position where
  pair : String
  entryPrice : ℚ
  volume : ℚ
  entryTime : ℚ
  stopLoss : ℚ
  profitTarget : ℚ
  pyramidLevels : List PyramidLevel
  totalVolume : ℚ
  pyramidLevelsActivated : Nat
  currentProfit : ℚ
  profitPct : ℚ
  peakProfit : ℚ
  erosionCap : ℚ
  erosionUsed : ℚ
  aiReasoning : List String
  adx : ℚ
  regime : Regime
  status : PosStatus
  exitPrice : Option ℚ := none
  exitTime : Option ℚ := none
  exitReason : Option String := none
deriving DecidableEq

/-- AI decision verdict. -/
inductive AIVerdict where
  | buy
  | hold
deriving DecidableEq

/-- AI decision input; `addPosition` reads only `reasoning`. -/
structure AIDecision where
  decision : AIVerdict
  confidence : ℚ
  reasoning : List String

/-- The slice of the bot `Config` read by the embedded tracker methods
(the full interface has many more fields, none of them consumed here). -/
structure Config where
  underwaterExitThresholdPct : ℚ
  underwaterExitMinTimeMinutes : ℚ

/-- Performance statistics.  `profitFactor = none` models the JavaScript
`Infinity` produced when `totalLoss = 0 < totalProfit`. -/
structure PerformanceStats where
  totalTrades : Nat
  winningTrades : Nat
  losingTrades : Nat
  winRate : ℚ
  totalProfit : ℚ
  totalLoss : ℚ
  expectancy : ℚ
  profitFactor : Option ℚ
  maxDrawdown : ℚ
  maxDrawdownPct : ℚ
deriving DecidableEq

/-- The open-positions `Map<string, Position>`, modelled as an association
list in insertion order. -/
abbrev PositionsMap := List (String × Position)

/-- `Map.get`: the value at the first (unique) occurrence of the key. -/
def mapGet : PositionsMap → String → Option Position
  | [], _ => none
  | e :: rest, k => if e.1 = k then some e.2 else mapGet rest k

/-- `Map.set`: replace the value in place if the key is present (keeping
insertion order), otherwise append a new entry. -/
def mapSet : PositionsMap → String → Position → PositionsMap
  | [], k, v => [(k, v)]
  | e :: rest, k, v => if e.1 = k then (k, v) :: rest else e :: mapSet rest k v

/-- `Map.delete`: remove the entry (entries) with the given key. -/
def mapDelete (m : PositionsMap) (k : String) : PositionsMap :=
  m.filter (fun e => decide (e.1 ≠ k))

/-- The `PositionTracker` state.  `persisted` holds the last document written
by `savePositions` — the open-position values and the closed history (the
also-serialised wall-clock timestamp carries no information used by any
property). -/
structure PositionTracker where
  positions : PositionsMap
  closedPositions : List Position
  profitLockGivebackPct : ℚ
  accountBalance : ℚ
  persisted : Option (List Position × List Position)

/-- The in-memory state that `savePositions` serialises:
`Array.from(positions.values())` and the closed history. -/
def snapshot (t : PositionTracker) : List Position × List Position :=
  (t.positions.map (fun e => e.2), t.closedPositions)

/-- `PositionTracker.savePositions`: write-through of the full snapshot. -/
def savePositions (t : PositionTracker) : PositionTracker :=
  { t with persisted := some (snapshot t) }

/-- `PositionTracker.addPosition`: refuse a duplicate pair (no-op), otherwise
insert the freshly initialised position and persist. -/
def addPosition (t : PositionTracker) (pair : String) (entryPrice volume stopLoss profitTarget : ℚ)
    (aiDecision : AIDecision) (adx : ℚ) (regime : Regime) (erosionCap : ℚ) (now : ℚ) :
    PositionTracker :=
  if (mapGet t.positions pair).isSome then t
  else
    let position : Position :=
      { pair := pair, entryPrice := entryPrice, volume := volume, entryTime := now,
        stopLoss := stopLoss, profitTarget := profitTarget,
        pyramidLevels := [], totalVolume := volume, pyramidLevelsActivated := 0,
        currentProfit := 0, profitPct := 0, peakProfit := 0,
        erosionCap := erosionCap, erosionUsed := 0,
        aiReasoning := aiDecision.reasoning, adx := adx, regime := regime,
        status := PosStatus.opened }
    savePositions { t with positions := mapSet t.positions pair position }

/-- Total cost basis across L0 and every pyramid level
(`entryPrice*volume` summed), as accumulated by `updatePosition`,
`checkErosionCap` and `checkProfitableCollapse`. -/
def totalCostOf (p : Position) : ℚ :=
  p.entryPrice * p.volume + (p.pyramidLevels.map (fun l => l.entryPrice * l.volume)).sum

/-- Total profit across L0 and every pyramid level at a given price,
as accumulated by `updatePosition`. -/
def totalProfitAt (p : Position) (currentPrice : ℚ) : ℚ :=
  (currentPrice - p.entryPrice) * p.volume +
    (p.pyramidLevels.map (fun l => (currentPrice - l.entryPrice) * l.volume)).sum

/-- Peak profit as a percentage of total cost basis, shared by
`checkErosionCap` and `checkProfitableCollapse`. -/
def peakProfitPctOf (p : Position) : ℚ :=
  if 0 < totalCostOf p then p.peakProfit / totalCostOf p * 100 else 0

/-- The per-position body of `PositionTracker.updatePosition`: recompute
profit and cost over all levels, update `currentProfit`/`profitPct`, raise
the peak (resetting erosion) on a new high, otherwise set
`erosionUsed = peakProfit - currentProfit`. -/
def refreshPosition (p : Position) (currentPrice : ℚ) : Position :=
  let totalProfit := totalProfitAt p currentPrice
  let totalCost := totalCostOf p
  let p1 := { p with currentProfit := totalProfit,
                     profitPct := if 0 < totalCost then totalProfit / totalCost * 100 else 0 }
  if p1.peakProfit < p1.currentProfit then
    { p1 with peakProfit := p1.currentProfit, erosionUsed := 0 }
  else
    { p1 with erosionUsed := p1.peakProfit - p1.currentProfit }

/-- `PositionTracker.updatePosition`: refresh the named position in place.
No-op on an unknown pair.  Note that the source does not call
`savePositions` here. -/
def updatePosition (t : PositionTracker) (pair : String) (currentPrice : ℚ) : PositionTracker :=
  match mapGet t.positions pair with
  | none => t
  | some p => { t with positions := mapSet t.positions pair (refreshPosition p currentPrice) }

/-- A sequence of `updatePosition` calls for one pair. -/
def refreshSeq (t : PositionTracker) (pair : String) (prices : List ℚ) : PositionTracker :=
  prices.foldl (fun s c => updatePosition s pair c) t

/-- `PositionTracker.addPyramidLevel`: fails (false, unchanged state) on an
unknown pair, on 2 already-activated levels, or on a duplicate level number;
otherwise appends the level, updates the aggregates, persists and returns
true. -/
def addPyramidLevel (t : PositionTracker) (pair : String) (level : Nat)
    (entryPrice volume aiConfidence : ℚ) (now : ℚ) : Bool × PositionTracker :=
  match mapGet t.positions pair with
  | none => (false, t)
  | some p =>
    if 2 ≤ p.pyramidLevelsActivated then (false, t)
    else if p.pyramidLevels.any (fun l => l.level == level) then (false, t)
    else
      let triggerPct : ℚ := if level = 1 then 0.045 else 0.08
      let pyramidLevel : PyramidLevel :=
        { level := level, entryPrice := entryPrice, volume := volume, entryTime := now,
          triggerProfitPct := triggerPct, aiConfidence := aiConfidence,
          status := LevelStatus.active }
      let updated := { p with pyramidLevels := p.pyramidLevels ++ [pyramidLevel],
                              totalVolume := p.totalVolume + volume,
                              pyramidLevelsActivated := p.pyramidLevelsActivated + 1 }
      (true, savePositions { t with positions := mapSet t.positions pair updated })

/-- `PositionTracker.checkErosionCap`: profit-lock giveback guard with the
1.0% peak-as-percent-of-cost noise gate. -/
def checkErosionCap (t : PositionTracker) (pair : String) : Bool :=
  match mapGet t.positions pair with
  | none => false
  | some p =>
    if p.peakProfit ≤ 0 then false
    else if peakProfitPctOf p < 1 then false
    else
      let givebackRatio := p.erosionUsed / p.peakProfit
      if t.profitLockGivebackPct < givebackRatio then true else false

/-- `PositionTracker.checkUnderwaterExit`: only for never-profitable,
currently-losing positions old enough, whose percent loss is strictly below
the (fraction-configured, here ×100) threshold. -/
def checkUnderwaterExit (t : PositionTracker) (pair : String) (config : Config) (now : ℚ) :
    Bool :=
  match mapGet t.positions pair with
  | none => false
  | some p =>
    if 0 < p.peakProfit then false
    else if 0 ≤ p.currentProfit then false
    else
      let ageMinutes := (now - p.entryTime) / 60000
      if ageMinutes < config.underwaterExitMinTimeMinutes then false
      else
        let thresholdPct := config.underwaterExitThresholdPct * 100
        if p.profitPct < thresholdPct then true else false

/-- `PositionTracker.checkProfitableCollapse`: fires when the peak was at
least 0.5% of the cost basis and the position is now strictly underwater. -/
def checkProfitableCollapse (t : PositionTracker) (pair : String) : Bool :=
  match mapGet t.positions pair with
  | none => false
  | some p =>
    if peakProfitPctOf p < 0.5 then false
    else if 0 ≤ p.currentProfit then false
    else true

/-- `PositionTracker.checkStopLoss`. -/
def checkStopLoss (t : PositionTracker) (pair : String) (currentPrice : ℚ) : Bool :=
  match mapGet t.positions pair with
  | none => false
  | some p => if currentPrice ≤ p.stopLoss then true else false

/-- `PositionTracker.checkProfitTarget`. -/
def checkProfitTarget (t : PositionTracker) (pair : String) (currentPrice : ℚ) : Bool :=
  match mapGet t.positions pair with
  | none => false
  | some p => if p.profitTarget ≤ currentPrice then true else false

/-- `PositionTracker.isReadyForL1`: advisory gate — no L1 yet and profit at
the trigger. -/
def isReadyForL1 (t : PositionTracker) (pair : String) (currentProfit l1TriggerPct : ℚ) :
    Bool :=
  match mapGet t.positions pair with
  | none => false
  | some p =>
    if 1 ≤ p.pyramidLevelsActivated then false
    else if l1TriggerPct ≤ currentProfit then true else false

/-- `PositionTracker.isReadyForL2`: advisory gate — L1 present, no L2 yet,
profit at the trigger. -/
def isReadyForL2 (t : PositionTracker) (pair : String) (currentProfit l2TriggerPct : ℚ) :
    Bool :=
  match mapGet t.positions pair with
  | none => false
  | some p =>
    if p.pyramidLevelsActivated < 1 then false
    else if 2 ≤ p.pyramidLevelsActivated then false
    else if l2TriggerPct ≤ currentProfit then true else false

/-- `PositionTracker.closePosition`: stamp exit fields and final P&L computed
from the L0 entry price and volume only, move the position from the open map
to the closed history, persist. -/
def closePosition (t : PositionTracker) (pair : String) (exitPrice : ℚ) (exitReason : String)
    (now : ℚ) : PositionTracker :=
  match mapGet t.positions pair with
  | none => t
  | some p =>
    let profitPct := (exitPrice - p.entryPrice) / p.entryPrice
    let closedPos := { p with exitPrice := some exitPrice, exitTime := some now,
                              exitReason := some exitReason, status := PosStatus.closed,
                              profitPct := profitPct * 100,
                              currentProfit := p.volume * profitPct * p.entryPrice }
    savePositions { t with closedPositions := t.closedPositions ++ [closedPos],
                           positions := mapDelete t.positions pair }

/-- Accumulator of the `getPerformanceStats` loop. -/
structure StatsAcc where
  totalProfit : ℚ
  totalLoss : ℚ
  winningTrades : Nat
  losingTrades : Nat
  maxDrawdown : ℚ
  cumulativeProfit : ℚ
  peak : ℚ

/-- One iteration of the `getPerformanceStats` loop over a closed position.
`position.currentProfit || 0` is the identity on the (always finite) model
values. -/
def statsStep (acc : StatsAcc) (position : Position) : StatsAcc :=
  let profit := position.currentProfit
  let acc1 :=
    if 0 < profit then
      { acc with totalProfit := acc.totalProfit + profit,
                 winningTrades := acc.winningTrades + 1 }
    else
      { acc with totalLoss := acc.totalLoss + |profit|,
                 losingTrades := acc.losingTrades + 1 }
  let cumulativeProfit := acc1.cumulativeProfit + profit
  let peak := if acc1.peak < cumulativeProfit then cumulativeProfit else acc1.peak
  let drawdown := peak - cumulativeProfit
  { acc1 with cumulativeProfit := cumulativeProfit, peak := peak,
              maxDrawdown := if acc1.maxDrawdown < drawdown then drawdown else acc1.maxDrawdown }

/-- `PositionTracker.getPerformanceStats`: all-zero stats on an empty closed
history, otherwise one pass over the chronological closed history. -/
def getPerformanceStats (t : PositionTracker) : PerformanceStats :=
  if t.closedPositions.length = 0 then
    ⟨0, 0, 0, 0, 0, 0, 0, some 0, 0, 0⟩
  else
    let acc := t.closedPositions.foldl statsStep ⟨0, 0, 0, 0, 0, 0, 0⟩
    let totalTrades := t.closedPositions.length
    let winRate := if 0 < totalTrades then (acc.winningTrades : ℚ) / totalTrades * 100 else 0
    let totalGain := acc.totalProfit - acc.totalLoss
    let expectancy := if 0 < totalTrades then totalGain / totalTrades else 0
    let profitFactor :=
      if 0 < acc.totalLoss then some (acc.totalProfit / acc.totalLoss)
      else if 0 < acc.totalProfit then none
      else some 0
    let maxDrawdownPct :=
      if 0 < t.accountBalance then acc.maxDrawdown / t.accountBalance * 100 else 0
    ⟨totalTrades, acc.winningTrades, acc.losingTrades, winRate, acc.totalProfit,
     acc.totalLoss, expectancy, profitFactor, acc.maxDrawdown, maxDrawdownPct⟩

/-! ## Map and snapshot lemmas -/

theorem mapGet_mapSet_self (m : PositionsMap) (k : String) (v : Position) :
    mapGet (mapSet m k v) k = some v := by
  induction m with
  | nil => simp [mapSet, mapGet]
  | cons e rest ih =>
    by_cases h : e.1 = k
    · simp [mapSet, mapGet, h]
    · simp [mapSet, mapGet, h, ih]

theorem mapGet_mapDelete_self (m : PositionsMap) (k : String) :
    mapGet (mapDelete m k) k = none := by
  induction m with
  | nil => simp [mapDelete, mapGet]
  | cons e rest ih =>
    by_cases h : e.1 = k
    · simpa [mapDelete, List.filter_cons, h] using ih
    · simpa [mapDelete, List.filter_cons, mapGet, h] using ih

theorem snapshot_savePositions (t : PositionTracker) :
    snapshot (savePositions t) = snapshot t := rfl

theorem persisted_savePositions (t : PositionTracker) :
    (savePositions t).persisted = some (snapshot t) := rfl

/-! ## Refresh-step lemmas -/

theorem refreshPosition_peakProfit (p : Position) (c : ℚ) :
    (refreshPosition p c).peakProfit =
      if p.peakProfit < totalProfitAt p c then totalProfitAt p c else p.peakProfit := by
  simp only [refreshPosition]
  split <;> rfl

theorem refreshPosition_currentProfit (p : Position) (c : ℚ) :
    (refreshPosition p c).currentProfit = totalProfitAt p c := by
  simp only [refreshPosition]
  split <;> rfl

theorem refreshPosition_erosionUsed (p : Position) (c : ℚ) :
    (refreshPosition p c).erosionUsed =
      if p.peakProfit < totalProfitAt p c then 0 else p.peakProfit - totalProfitAt p c := by
  simp only [refreshPosition]
  split <;> rfl

theorem refreshPosition_peak_mono (p : Position) (c : ℚ) :
    p.peakProfit ≤ (refreshPosition p c).peakProfit := by
  rw [refreshPosition_peakProfit]
  split
  · exact le_of_lt (by assumption)
  · exact le_refl _

theorem refreshPosition_erosion_nonneg (p : Position) (c : ℚ) :
    0 ≤ (refreshPosition p c).erosionUsed := by
  rw [refreshPosition_erosionUsed]
  split
  · exact le_refl 0
  · next h => linarith [not_lt.mp h]

theorem refreshPosition_erosion_reset (p : Position) (c : ℚ)
    (h : p.peakProfit < totalProfitAt p c) :
    (refreshPosition p c).erosionUsed = 0 := by
  rw [refreshPosition_erosionUsed, if_pos h]

theorem updatePosition_get (t : PositionTracker) (pair : String) (c : ℚ) (p : Position)
    (h : mapGet t.positions pair = some p) :
    mapGet (updatePosition t pair c).positions pair = some (refreshPosition p c) := by
  simp only [updatePosition, h]
  exact mapGet_mapSet_self t.positions pair (refreshPosition p c)

theorem refreshSeq_peak (pair : String) (prices : List ℚ) :
    ∀ (t : PositionTracker) (p : Position), mapGet t.positions pair = some p →
      ∃ q, mapGet (refreshSeq t pair prices).positions pair = some q ∧
        p.peakProfit ≤ q.peakProfit := by
  induction prices with
  | nil =>
    intro t p h
    exact ⟨p, by simpa [refreshSeq] using h, le_refl _⟩
  | cons c cs ih =>
    intro t p h
    obtain ⟨q, hq, hle⟩ := ih (updatePosition t pair c) (refreshPosition p c)
      (updatePosition_get t pair c p h)
    refine ⟨q, ?_, le_trans (refreshPosition_peak_mono p c) hle⟩
    simpa [refreshSeq] using hq

/-! ## Shared concrete fixtures -/

/-- A tracker with the constructor defaults (giveback 0.5, balance 1000) and
no positions. -/
def emptyTracker : PositionTracker :=
  { positions := [], closedPositions := [], profitLockGivebackPct := 0.5,
    accountBalance := 1000, persisted := none }

/-- A canned AI decision (only `reasoning` is ever read, and it is empty). -/
def buyDecision : AIDecision := ⟨AIVerdict.buy, 0.8, []⟩

def ethPair : String := "ETH/USD"

/-! ## C1: the ETH erosion-cap scenario -/

/-- ETH/USD opened at 3000 with volume 1 (spec scenario). -/
def ethT1 : PositionTracker :=
  addPosition emptyTracker ethPair 3000 1 2900 3200 buyDecision 0 Regime.moderate 0.008 0

/-- After the refresh at price 3015. -/
def ethT2 : PositionTracker := updatePosition ethT1 ethPair 3015

/-- After the further refresh at price 3005. -/
def ethT3 : PositionTracker := updatePosition ethT2 ethPair 3005

/-- Claim C1 is false on the code: in the spec's exact scenario (entry 3000,
volume 1, refresh to 3015 then 3005, giveback threshold 0.5) all the
intermediate values are as the claim states, yet `checkErosionCap` returns
false, not true. -/
theorem claim_C1_counterexample :
    (mapGet ethT2.positions ethPair).map Position.currentProfit = some 15 ∧
    (mapGet ethT2.positions ethPair).map Position.profitPct = some 0.5 ∧
    (mapGet ethT2.positions ethPair).map Position.peakProfit = some 15 ∧
    (mapGet ethT2.positions ethPair).map Position.erosionUsed = some 0 ∧
    (mapGet ethT3.positions ethPair).map Position.currentProfit = some 5 ∧
    (mapGet ethT3.positions ethPair).map Position.peakProfit = some 15 ∧
    (mapGet ethT3.positions ethPair).map Position.erosionUsed = some 10 ∧
    ethT3.profitLockGivebackPct = 0.5 ∧
    checkErosionCap ethT3 ethPair = false := by
  refine ⟨?_, ?_, ?_, ?_, ?_, ?_, ?_, ?_, ?_⟩ <;>
    norm_num [ethT3, ethT2, ethT1, emptyTracker, buyDecision, addPosition, updatePosition,
      refreshPosition, totalProfitAt, totalCostOf, peakProfitPctOf, mapGet, mapSet,
      savePositions, snapshot, checkErosionCap]

/-- Claim C1 amended: in that scenario the giveback ratio 10/15 does exceed
the 0.5 threshold, but the peak is only 0.5% of the 3000 cost basis — below
the 1.0% noise gate — so `checkErosionCap` returns false. -/
theorem claim_C1_amended :
    (mapGet ethT3.positions ethPair).map peakProfitPctOf = some 0.5 ∧
    (mapGet ethT3.positions ethPair).map
      (fun p => p.erosionUsed / p.peakProfit) = some (2/3) ∧
    ethT3.profitLockGivebackPct < 2/3 ∧
    checkErosionCap ethT3 ethPair = false := by
  refine ⟨?_, ?_, ?_, ?_⟩ <;>
    norm_num [ethT3, ethT2, ethT1, emptyTracker, buyDecision, addPosition, updatePosition,
      refreshPosition, totalProfitAt, totalCostOf, peakProfitPctOf, mapGet, mapSet,
      savePositions, snapshot, checkErosionCap]

/-! ## C2: write-through persistence -/

def btcPair : String := "BTC/USD"

/-- BTC/USD opened at 100 with volume 1; `addPosition` persists. -/
def btcT1 : PositionTracker :=
  addPosition emptyTracker btcPair 100 1 90 120 buyDecision 0 Regime.moderate 0.008 0

/-- After a refresh at price 110 — which does not persist. -/
def btcT2 : PositionTracker := updatePosition btcT1 btcPair 110

/-- Claim C2 is false on the code: `updatePosition` (refresh) does not call
`savePositions`, so after a refresh the persisted snapshot still holds the
pre-refresh position (profit 0) while the in-memory state holds profit 10. -/
theorem claim_C2_counterexample :
    btcT2.persisted.map (fun s => s.1.map Position.currentProfit) = some [0] ∧
    (snapshot btcT2).1.map Position.currentProfit = [10] ∧
    btcT2.persisted ≠ some (snapshot btcT2) := by
  have h1 : btcT2.persisted.map (fun s => s.1.map Position.currentProfit) = some [0] := by
    norm_num [btcT2, btcT1, emptyTracker, buyDecision, addPosition, updatePosition,
      refreshPosition, totalProfitAt, totalCostOf, mapGet, mapSet, savePositions, snapshot]
  have h2 : (snapshot btcT2).1.map Position.currentProfit = [10] := by
    norm_num [btcT2, btcT1, emptyTracker, buyDecision, addPosition, updatePosition,
      refreshPosition, totalProfitAt, totalCostOf, mapGet, mapSet, savePositions, snapshot]
  refine ⟨h1, h2, ?_⟩
  intro hc
  rw [hc] at h1
  simp only [Option.map_some'] at h1
  rw [h2] at h1
  exact absurd (Option.some.inj h1) (by norm_num)

/-- Claim C2 amended: `addPosition` (on a fresh pair), a successful
`addPyramidLevel`, and `closePosition` (on a present pair) each persist the
full snapshot synchronously, so afterwards the persisted document equals the
in-memory state; `updatePosition` is the exception and persists nothing. -/
theorem claim_C2_amended (t : PositionTracker) (pair : String) :
    (∀ ep v sl pt ai adx rg ec now, mapGet t.positions pair = none →
        (addPosition t pair ep v sl pt ai adx rg ec now).persisted =
          some (snapshot (addPosition t pair ep v sl pt ai adx rg ec now))) ∧
    (∀ level ep v conf now, (addPyramidLevel t pair level ep v conf now).1 = true →
        (addPyramidLevel t pair level ep v conf now).2.persisted =
          some (snapshot (addPyramidLevel t pair level ep v conf now).2)) ∧
    (∀ xp xr now, (mapGet t.positions pair).isSome →
        (closePosition t pair xp xr now).persisted =
          some (snapshot (closePosition t pair xp xr now))) := by
  refine ⟨?_, ?_, ?_⟩
  · intro ep v sl pt ai adx rg ec now h
    simp only [addPosition, h, Option.isSome_none, Bool.false_eq_true, if_false]
    rfl
  · intro level ep v conf now h
    cases hm : mapGet t.positions pair with
    | none => rw [addPyramidLevel, hm] at h ⊢; exact absurd h (by simp)
    | some p =>
      simp only [addPyramidLevel, hm] at h ⊢
      split_ifs at h ⊢ <;> rfl
  · intro xp xr now h
    cases hm : mapGet t.positions pair with
    | none => rw [hm] at h; exact absurd h (by simp)
    | some p => rw [closePosition, hm]; rfl

def solPair : String := "SOL/USD"

/-- A fixture for the C2 witness: a fresh tracker and pair. -/
def c2WitnessT : PositionTracker :=
  addPosition emptyTracker solPair 20 5 18 25 buyDecision 0 Regime.moderate 0.008 0

theorem claim_C2_witness :
    c2WitnessT.persisted = some (snapshot c2WitnessT) ∧
    (closePosition c2WitnessT solPair 22 solPair 60000).persisted =
      some (snapshot (closePosition c2WitnessT solPair 22 solPair 60000)) := by
  constructor
  · exact (claim_C2_amended emptyTracker solPair).1 20 5 18 25 buyDecision 0
      Regime.moderate 0.008 0 (by simp [emptyTracker, mapGet])
  · exact (claim_C2_amended c2WitnessT solPair).2.2 22 solPair 60000
      (by simp [c2WitnessT, emptyTracker, buyDecision, addPosition, mapGet, mapSet,
        savePositions, snapshot])

/-! ## C3: pyramid-level ordering and duplicates -/

def adaPair : String := "ADA/USD"

/-- A fresh open position for the C3 counterexample. -/
def c3T : PositionTracker :=
  addPosition emptyTracker adaPair 100 1 90 120 buyDecision 0 Regime.moderate 0.008 0

/-- Claim C3 is false on the code: on an open position with no pyramid
levels, `addPyramidLevel(pair, 2, ...)` — level 2 before level 1 exists —
returns true and appends the level-2 entry, not false with no mutation
(`addPyramidLevel` checks only the max-level count and duplicate levels,
never the L1-before-L2 ordering). -/
theorem claim_C3_counterexample :
    (mapGet c3T.positions adaPair).map (fun p => p.pyramidLevels.map PyramidLevel.level) =
      some [] ∧
    (addPyramidLevel c3T adaPair 2 105 1 90 0).1 = true ∧
    (mapGet (addPyramidLevel c3T adaPair 2 105 1 90 0).2.positions adaPair).map
      (fun p => p.pyramidLevels.map PyramidLevel.level) = some [2] := by
  refine ⟨?_, ?_, ?_⟩ <;>
    norm_num [c3T, emptyTracker, buyDecision, addPosition, addPyramidLevel, mapGet, mapSet,
      savePositions, snapshot]

/-- Claim C3 amended: on an open position with no pyramid levels,
`addPyramidLevel` for level 1 called twice returns true then false with the
state unchanged by the second call (duplicate rejected); `addPyramidLevel`
for level 2 before level 1 exists also returns true and appends the level —
the level-2-requires-level-1 ordering is enforced only by the advisory
`isReadyForL2` gate, which returns false while no level is activated. -/
theorem claim_C3_amended (t : PositionTracker) (pair : String) (p : Position)
    (h : mapGet t.positions pair = some p) (hlv : p.pyramidLevels = [])
    (hact : p.pyramidLevelsActivated = 0)
    (ep v conf now ep2 v2 conf2 now2 cp trig : ℚ) :
    (addPyramidLevel t pair 1 ep v conf now).1 = true ∧
    (addPyramidLevel (addPyramidLevel t pair 1 ep v conf now).2 pair 1 ep2 v2 conf2 now2).1 =
      false ∧
    (addPyramidLevel (addPyramidLevel t pair 1 ep v conf now).2 pair 1 ep2 v2 conf2 now2).2 =
      (addPyramidLevel t pair 1 ep v conf now).2 ∧
    (addPyramidLevel t pair 2 ep v conf now).1 = true ∧
    isReadyForL2 t pair cp trig = false := by
  have hfirst :
      mapGet (addPyramidLevel t pair 1 ep v conf now).2.positions pair =
        some { p with
          pyramidLevels :=
            [{ level := 1, entryPrice := ep, volume := v, entryTime := now,
               triggerProfitPct := 0.045, aiConfidence := conf, status := LevelStatus.active }],
          totalVolume := p.totalVolume + v, pyramidLevelsActivated := 1 } := by
    simp only [addPyramidLevel, h, hlv, hact]
    norm_num [savePositions]
    exact mapGet_mapSet_self t.positions pair _
  obtain ⟨t1, ht1⟩ : ∃ t1, (addPyramidLevel t pair 1 ep v conf now).2 = t1 := ⟨_, rfl⟩
  rw [ht1] at hfirst
  have hsecond : addPyramidLevel t1 pair 1 ep2 v2 conf2 now2 = (false, t1) := by
    simp [addPyramidLevel, hfirst]
  refine ⟨?_, ?_, ?_, ?_, ?_⟩
  · simp [addPyramidLevel, h, hlv, hact]
  · rw [ht1, hsecond]
  · rw [ht1, hsecond]
  · simp [addPyramidLevel, h, hlv, hact]
  · simp [isReadyForL2, h, hact]

/-- A fresh open position for the C3 witness. -/
def c3WitnessT : PositionTracker :=
  addPosition emptyTracker btcPair 50 2 45 60 buyDecision 0 Regime.strong 0.008 0

theorem claim_C3_witness :
    (addPyramidLevel c3WitnessT btcPair 1 52 1 85 60000).1 = true ∧
    (addPyramidLevel (addPyramidLevel c3WitnessT btcPair 1 52 1 85 60000).2 btcPair 1 53 1 85
      120000).1 = false := by
  have h := claim_C3_amended c3WitnessT btcPair
    { pair := btcPair, entryPrice := 50, volume := 2, entryTime := 0, stopLoss := 45,
      profitTarget := 60, pyramidLevels := [], totalVolume := 2, pyramidLevelsActivated := 0,
      currentProfit := 0, profitPct := 0, peakProfit := 0, erosionCap := 0.008,
      erosionUsed := 0, aiReasoning := [], adx := 0, regime := Regime.strong,
      status := PosStatus.opened }
    (by norm_num [c3WitnessT, emptyTracker, buyDecision, addPosition, mapGet, mapSet,
      savePositions]) rfl rfl 52 1 85 60000 53 1 85 120000 0 0
  exact ⟨h.1, h.2.1⟩

/-! ## C4: peak monotonicity and erosion invariants over refresh sequences -/

/-- Claim C4: for any open position, `peakProfit` never decreases over any
sequence of `updatePosition` calls; after any single refresh `erosionUsed`
is ≥ 0, and it is exactly 0 whenever the freshly computed profit strictly
exceeds the prior `peakProfit`. -/
theorem claim_C4 (t : PositionTracker) (pair : String) (p : Position)
    (h : mapGet t.positions pair = some p) :
    (∀ prices : List ℚ, ∃ q,
        mapGet (refreshSeq t pair prices).positions pair = some q ∧
        p.peakProfit ≤ q.peakProfit) ∧
    (∀ c : ℚ, ∃ q,
        mapGet (updatePosition t pair c).positions pair = some q ∧
        0 ≤ q.erosionUsed ∧
        (p.peakProfit < totalProfitAt p c → q.erosionUsed = 0)) := by
  constructor
  · intro prices
    exact refreshSeq_peak pair prices t p h
  · intro c
    refine ⟨refreshPosition p c, updatePosition_get t pair c p h, ?_, ?_⟩
    · exact refreshPosition_erosion_nonneg p c
    · exact refreshPosition_erosion_reset p c

/-- The open position record of the C4 witness fixture. -/
def c4P : Position :=
  { pair := adaPair, entryPrice := 100, volume := 1, entryTime := 0, stopLoss := 90,
    profitTarget := 120, pyramidLevels := [], totalVolume := 1, pyramidLevelsActivated := 0,
    currentProfit := 0, profitPct := 0, peakProfit := 0, erosionCap := 0.008,
    erosionUsed := 0, aiReasoning := [], adx := 0, regime := Regime.moderate,
    status := PosStatus.opened }

def c4T : PositionTracker :=
  { positions := [(adaPair, c4P)], closedPositions := [], profitLockGivebackPct := 0.5,
    accountBalance := 1000, persisted := none }

theorem claim_C4_witness :
    (∃ q, mapGet (refreshSeq c4T adaPair [101, 99, 105]).positions adaPair = some q ∧
      c4P.peakProfit ≤ q.peakProfit) ∧
    (∃ q, mapGet (updatePosition c4T adaPair 103).positions adaPair = some q ∧
      0 ≤ q.erosionUsed ∧ (c4P.peakProfit < totalProfitAt c4P 103 → q.erosionUsed = 0)) := by
  have h := claim_C4 c4T adaPair c4P (by simp [c4T, mapGet])
  exact ⟨h.1 [101, 99, 105], h.2 103⟩

/-! ## C5: checkUnderwaterExit characterisation and scenario -/

/-- Claim C5: `checkUnderwaterExit` returns true exactly when the position
was never profitable (peakProfit ≤ 0), is currently losing
(currentProfit < 0), is at least the configured minimum age in minutes, and
its percent profit is strictly below the threshold fraction × 100. -/
theorem claim_C5 (t : PositionTracker) (pair : String) (config : Config) (now : ℚ)
    (p : Position) (h : mapGet t.positions pair = some p) :
    checkUnderwaterExit t pair config now = true ↔
      p.peakProfit ≤ 0 ∧ p.currentProfit < 0 ∧
      config.underwaterExitMinTimeMinutes ≤ (now - p.entryTime) / 60000 ∧
      p.profitPct < config.underwaterExitThresholdPct * 100 := by
  simp only [checkUnderwaterExit, h]
  split_ifs with h1 h2 h3 h4
  · simp only [Bool.false_eq_true, false_iff]
    intro hc
    exact absurd h1 (not_lt.mpr hc.1)
  · simp only [Bool.false_eq_true, false_iff]
    intro hc
    exact absurd h2 (not_le.mpr hc.2.1)
  · simp only [Bool.false_eq_true, false_iff]
    intro hc
    exact absurd h3 (not_lt.mpr hc.2.2.1)
  · simp only [true_iff]
    exact ⟨not_lt.mp h1, not_le.mp h2, not_lt.mp h3, h4⟩
  · simp only [Bool.false_eq_true, false_iff]
    intro hc
    exact absurd hc.2.2.2 h4

def uniPair : String := "UNI/USD"

/-- The C5 scenario: opened at 100 with volume 10 (cost basis 1000) at time
0, refreshed once at 99.1 (never profitable). -/
def c5T : PositionTracker :=
  updatePosition
    (addPosition emptyTracker uniPair 100 10 90 120 buyDecision 0 Regime.moderate 0.008 0)
    uniPair 99.1

/-- The underwater config of the scenario: threshold −0.8% (as the fraction
−0.008), minimum age 15 minutes. -/
def c5Config : Config := ⟨-0.008, 15⟩

/-- The position record held in `c5T` (profit −9, profitPct −0.9, peak 0). -/
def c5P : Position :=
  { pair := uniPair, entryPrice := 100, volume := 10, entryTime := 0, stopLoss := 90,
    profitTarget := 120, pyramidLevels := [], totalVolume := 10, pyramidLevelsActivated := 0,
    currentProfit := -9, profitPct := -0.9, peakProfit := 0, erosionCap := 0.008,
    erosionUsed := 9, aiReasoning := [], adx := 0, regime := Regime.moderate,
    status := PosStatus.opened }

theorem claim_C5_witness :
    checkUnderwaterExit c5T uniPair c5Config (14 * 60000) = false ∧
    checkUnderwaterExit c5T uniPair c5Config (16 * 60000) = true := by
  have hget : mapGet c5T.positions uniPair = some c5P := by
    norm_num [c5T, c5P, emptyTracker, buyDecision, addPosition, updatePosition,
      refreshPosition, totalProfitAt, totalCostOf, mapGet, mapSet, savePositions, snapshot]
  constructor
  · have hiff := claim_C5 c5T uniPair c5Config (14 * 60000) c5P hget
    rcases Bool.eq_false_or_eq_true (checkUnderwaterExit c5T uniPair c5Config (14 * 60000))
      with hb | hb
    · exact absurd (hiff.mp hb) (by norm_num [c5P, c5Config])
    · exact hb
  · exact (claim_C5 c5T uniPair c5Config (16 * 60000) c5P hget).mpr
      (by norm_num [c5P, c5Config])

/-! ## C6: checkProfitableCollapse at exact breakeven -/

def ltcPair : String := "LTC/USD"

/-- Opened at 100 with volume 10, refreshed to 100.5 (profit 5 = 0.5% of the
1000 cost basis) and back to 100 (profit exactly 0). -/
def c6T : PositionTracker :=
  updatePosition
    (updatePosition
      (addPosition emptyTracker ltcPair 100 10 90 120 buyDecision 0 Regime.moderate 0.008 0)
      ltcPair 100.5)
    ltcPair 100

/-- Claim C6 is false on the code: a position whose peak reached 0.5% of the
cost basis and whose current profit has fallen back to exactly 0 (breakeven,
hence ≤ 0) makes `checkProfitableCollapse` return false — the source requires
`currentProfit < 0` strictly. -/
theorem claim_C6_counterexample :
    (mapGet c6T.positions ltcPair).map Position.peakProfit = some 5 ∧
    (mapGet c6T.positions ltcPair).map peakProfitPctOf = some 0.5 ∧
    (mapGet c6T.positions ltcPair).map Position.currentProfit = some 0 ∧
    checkProfitableCollapse c6T ltcPair = false := by
  refine ⟨?_, ?_, ?_, ?_⟩ <;>
    norm_num [c6T, emptyTracker, buyDecision, addPosition, updatePosition, refreshPosition,
      totalProfitAt, totalCostOf, peakProfitPctOf, mapGet, mapSet, savePositions, snapshot,
      checkProfitableCollapse]

/-- Claim C6 amended: `checkProfitableCollapse` returns true exactly when the
peak reached at least 0.5% of the total cost basis and the current profit is
strictly negative; at exact breakeven (currentProfit = 0) it returns
false. -/
theorem claim_C6_amended (t : PositionTracker) (pair : String) (p : Position)
    (h : mapGet t.positions pair = some p) :
    checkProfitableCollapse t pair = true ↔
      (0.5 : ℚ) ≤ peakProfitPctOf p ∧ p.currentProfit < 0 := by
  simp only [checkProfitableCollapse, h]
  split_ifs with h1 h2
  · simp only [Bool.false_eq_true, false_iff]
    intro hc
    exact absurd h1 (not_lt.mpr hc.1)
  · simp only [Bool.false_eq_true, false_iff]
    intro hc
    exact absurd h2 (not_le.mpr hc.2)
  · simp only [true_iff]
    exact ⟨not_lt.mp h1, not_le.mp h2⟩

/-- One more refresh of the C6 fixture down to 99.9: profit −1, still peak
5 (0.5% of cost basis). -/
def c6Tdown : PositionTracker := updatePosition c6T ltcPair 99.9

/-- The position record held in `c6Tdown`. -/
def c6Pdown : Position :=
  { pair := ltcPair, entryPrice := 100, volume := 10, entryTime := 0, stopLoss := 90,
    profitTarget := 120, pyramidLevels := [], totalVolume := 10, pyramidLevelsActivated := 0,
    currentProfit := -1, profitPct := -0.1, peakProfit := 5, erosionCap := 0.008,
    erosionUsed := 6, aiReasoning := [], adx := 0, regime := Regime.moderate,
    status := PosStatus.opened }

theorem claim_C6_witness :
    checkProfitableCollapse c6Tdown ltcPair = true := by
  have hget : mapGet c6Tdown.positions ltcPair = some c6Pdown := by
    norm_num [c6Tdown, c6T, c6Pdown, emptyTracker, buyDecision, addPosition, updatePosition,
      refreshPosition, totalProfitAt, totalCostOf, mapGet, mapSet, savePositions, snapshot]
  exact (claim_C6_amended c6Tdown ltcPair c6Pdown hget).mpr
    (by norm_num [c6Pdown, peakProfitPctOf, totalCostOf])

/-! ## C7: indicator neutral defaults on short inputs -/

/-- Claim C7 is false on the code for one function: `calculateSMA` on the
empty sequence divides `0 / 0`, which is NaN in JavaScript (`none` in the
model) — not a neutral default. -/
theorem claim_C7_counterexample :
    calculateSMA ([] : List ℚ) 20 = none := by
  simp [calculateSMA, jsDiv]

/-- Claim C7 amended: on every input shorter than its required window each
indicator returns its documented insufficient-data result — RSI 50, MACD
zeros, ADX 20, EMA 0 on empty and the plain mean on short nonempty input,
volume ratio 1, momentum 0, and `calculateAllIndicators` the all-neutral
snapshot on no candles; `calculateSMA` returns the mean of all values on a
short nonempty input but NaN (not a neutral default) on the empty one. -/
theorem claim_C7_amended :
    (∀ (closes : List ℚ) (period : Nat), closes.length < period + 1 →
        calculateRSI closes period = 50) ∧
    (∀ (closes : List ℚ) (fast slow signal : Nat), closes.length + 1 < slow + signal →
        calculateMACD closes fast slow signal = ⟨0, 0, 0⟩) ∧
    (∀ (highs lows closes : List ℚ) (period : Nat), highs.length < period * 2 + 1 →
        calculateADX highs lows closes period = 20) ∧
    (∀ period : Nat, calculateEMA [] period = 0) ∧
    (∀ (closes : List ℚ) (period : Nat), closes ≠ [] → closes.length ≤ period →
        calculateEMA closes period = closes.sum / closes.length) ∧
    (∀ (values : List ℚ) (period : Nat), values ≠ [] → values.length < period →
        calculateSMA values period = some (values.sum / values.length)) ∧
    (∀ period : Nat, calculateVolumeRatio [] period = 1) ∧
    (∀ (closes : List ℚ) (period : Nat), closes.length < period + 1 →
        calculateMomentum closes period = 0) ∧
    calculateAllIndicators [] = ⟨50, ⟨0, 0, 0⟩, 20, 1, 0, 0, 0, 0, 0⟩ := by
  refine ⟨?_, ?_, ?_, ?_, ?_, ?_, ?_, ?_, ?_⟩
  · intro closes period h
    simp [calculateRSI, h]
  · intro closes fast slow signal h
    simp [calculateMACD, h]
  · intro highs lows closes period h
    simp [calculateADX, h]
  · intro period
    simp [calculateEMA]
  · intro closes period hne hlen
    have h0 : closes.length ≠ 0 := by simpa using hne
    simp [calculateEMA, h0, hlen]
  · intro values period hne hlen
    have h0 : values.length ≠ 0 := by simpa using hne
    simp [calculateSMA, hlen, jsDiv, h0]
  · intro period
    simp [calculateVolumeRatio]
  · intro closes period h
    simp [calculateMomentum, h]
  · simp [calculateAllIndicators]

theorem claim_C7_witness :
    calculateRSI ([] : List ℚ) 14 = 50 ∧
    calculateMACD ([] : List ℚ) 12 26 9 = ⟨0, 0, 0⟩ ∧
    calculateADX ([] : List ℚ) [] [] 14 = 20 ∧
    calculateEMA ([] : List ℚ) 200 = 0 ∧
    calculateEMA ([1, 2] : List ℚ) 3 = ([1, 2] : List ℚ).sum / ([1, 2] : List ℚ).length ∧
    calculateSMA ([4] : List ℚ) 20 = some (([4] : List ℚ).sum / ([4] : List ℚ).length) ∧
    calculateVolumeRatio ([] : List ℚ) 20 = 1 ∧
    calculateMomentum ([] : List ℚ) 10 = 0 ∧
    calculateAllIndicators [] = ⟨50, ⟨0, 0, 0⟩, 20, 1, 0, 0, 0, 0, 0⟩ :=
  ⟨claim_C7_amended.1 [] 14 (by simp),
   claim_C7_amended.2.1 [] 12 26 9 (by simp),
   claim_C7_amended.2.2.1 [] [] [] 14 (by simp),
   claim_C7_amended.2.2.2.1 200,
   claim_C7_amended.2.2.2.2.1 [1, 2] 3 (by simp) (by simp),
   claim_C7_amended.2.2.2.2.2.1 [4] 20 (by simp) (by simp),
   claim_C7_amended.2.2.2.2.2.2.1 20,
   claim_C7_amended.2.2.2.2.2.2.2.1 [] 10 (by simp),
   claim_C7_amended.2.2.2.2.2.2.2.2⟩

/-! ## C8: calculateRSI defaults and range -/

/-- Claim C8: with any positive period, RSI returns 50 on fewer than
period+1 closes, returns 100 when the Wilder-smoothed average loss is
exactly 0, and always lies within [0,100]. -/
theorem claim_C8 (closes : List ℚ) (period : Nat) (hper : 0 < period) :
    (closes.length < period + 1 → calculateRSI closes period = 50) ∧
    (¬ closes.length < period + 1 → (wilderAvgs (deltasOf closes) period).2 = 0 →
        calculateRSI closes period = 100) ∧
    (0 ≤ calculateRSI closes period ∧ calculateRSI closes period ≤ 100) := by
  refine ⟨?_, ?_, ?_⟩
  · intro h
    simp [calculateRSI, h]
  · intro h hloss
    simp [calculateRSI, h, hloss]
  · by_cases h1 : closes.length < period + 1
    · simp only [calculateRSI, if_pos h1]
      norm_num
    · by_cases h2 : (wilderAvgs (deltasOf closes) period).2 = 0
      · simp only [calculateRSI, if_neg h1, if_pos h2]
        norm_num
      · have hval : calculateRSI closes period =
            min 100 (max 0 (100 - 100 / (1 + (wilderAvgs (deltasOf closes) period).1 /
              (wilderAvgs (deltasOf closes) period).2))) := by
          simp [calculateRSI, h1, h2]
        rw [hval]
        constructor
        · exact le_min (by norm_num) (le_max_left 0 _)
        · exact min_le_left 100 _


/-- Sixteen strictly increasing closes: every delta is a gain, so the
Wilder-smoothed average loss is exactly 0. -/
def risingCloses : List ℚ :=
  [1, 2, 3, 4, 5, 6, 7, 8, 9, 10, 11, 12, 13, 14, 15, 16]

theorem claim_C8_witness :
    calculateRSI ([] : List ℚ) 14 = 50 ∧
    calculateRSI risingCloses 14 = 100 ∧
    (0 ≤ calculateRSI risingCloses 14 ∧ calculateRSI risingCloses 14 ≤ 100) := by
  refine ⟨?_, ?_, ?_⟩
  · exact (claim_C8 [] 14 (by norm_num)).1 (by simp)
  · exact (claim_C8 risingCloses 14 (by norm_num)).2.1 (by simp [risingCloses])
      (by norm_num [risingCloses, wilderAvgs, deltasOf, wilderStep, gainOf, lossOf])
  · exact (claim_C8 risingCloses 14 (by norm_num)).2.2

/-! ## C9: closePosition -/

/-- Claim C9: `closePosition` computes the final `profitPct` and
`currentProfit` from the L0 entry price and volume only (no pyramid-level
terms appear), stamps exit fields and `closed` status, removes the pair from
the open map, and appends the closed record exactly once to the closed
history. -/
theorem claim_C9 (t : PositionTracker) (pair : String) (p : Position) (xp : ℚ)
    (xr : String) (now : ℚ) (h : mapGet t.positions pair = some p) :
    ∃ closedPos : Position,
      closedPos.profitPct = (xp - p.entryPrice) / p.entryPrice * 100 ∧
      closedPos.currentProfit =
        p.volume * ((xp - p.entryPrice) / p.entryPrice) * p.entryPrice ∧
      closedPos.exitPrice = some xp ∧
      closedPos.exitTime = some now ∧
      closedPos.exitReason = some xr ∧
      closedPos.status = PosStatus.closed ∧
      mapGet (closePosition t pair xp xr now).positions pair = none ∧
      (closePosition t pair xp xr now).closedPositions = t.closedPositions ++ [closedPos] ∧
      (closedPos ∉ t.closedPositions →
        ((closePosition t pair xp xr now).closedPositions).count closedPos = 1) := by
  refine ⟨{ p with
              exitPrice := some xp,
              exitTime := some now,
              exitReason := some xr,
              status := PosStatus.closed,
              profitPct := (xp - p.entryPrice) / p.entryPrice * 100,
              currentProfit := p.volume * ((xp - p.entryPrice) / p.entryPrice) * p.entryPrice },
          rfl, rfl, rfl, rfl, rfl, rfl, ?_, ?_, ?_⟩
  · simp only [closePosition, h]
    exact mapGet_mapDelete_self t.positions pair
  · simp only [closePosition, h]
    rfl
  · intro hmem
    have hlist : (closePosition t pair xp xr now).closedPositions =
        t.closedPositions ++
          [{ p with
               exitPrice := some xp,
               exitTime := some now,
               exitReason := some xr,
               status := PosStatus.closed,
               profitPct := (xp - p.entryPrice) / p.entryPrice * 100,
               currentProfit := p.volume * ((xp - p.entryPrice) / p.entryPrice) * p.entryPrice }] := by
      simp only [closePosition, h]
      rfl
    rw [hlist, List.count_append, List.count_eq_zero.mpr hmem]
    simp

def xrpPair : String := "XRP/USD"

/-- A fixture for the C9 witness. -/
def c9P : Position :=
  { pair := xrpPair, entryPrice := 2, volume := 100, entryTime := 0, stopLoss := 1.8,
    profitTarget := 2.6, pyramidLevels := [], totalVolume := 100, pyramidLevelsActivated := 0,
    currentProfit := 0, profitPct := 0, peakProfit := 0, erosionCap := 0.008,
    erosionUsed := 0, aiReasoning := [], adx := 0, regime := Regime.moderate,
    status := PosStatus.opened }

def c9T : PositionTracker :=
  { positions := [(xrpPair, c9P)], closedPositions := [], profitLockGivebackPct := 0.5,
    accountBalance := 1000, persisted := none }

theorem claim_C9_witness :
    ∃ closedPos : Position,
      closedPos.profitPct = (2.2 - c9P.entryPrice) / c9P.entryPrice * 100 ∧
      closedPos.currentProfit =
        c9P.volume * ((2.2 - c9P.entryPrice) / c9P.entryPrice) * c9P.entryPrice ∧
      closedPos.exitPrice = some 2.2 ∧
      closedPos.exitTime = some 60000 ∧
      closedPos.exitReason = some xrpPair ∧
      closedPos.status = PosStatus.closed ∧
      mapGet (closePosition c9T xrpPair 2.2 xrpPair 60000).positions xrpPair = none ∧
      (closePosition c9T xrpPair 2.2 xrpPair 60000).closedPositions =
        c9T.closedPositions ++ [closedPos] ∧
      (closedPos ∉ c9T.closedPositions →
        ((closePosition c9T xrpPair 2.2 xrpPair 60000).closedPositions).count closedPos = 1) :=
  claim_C9 c9T xrpPair c9P 2.2 xrpPair 60000 (by simp [c9T, mapGet])

/-! ## C10: zero-profit trades in getPerformanceStats -/

theorem statsStep_winningTrades (acc : StatsAcc) (q : Position) :
    (statsStep acc q).winningTrades =
      if 0 < q.currentProfit then acc.winningTrades + 1 else acc.winningTrades := by
  simp only [statsStep]
  split_ifs <;> rfl

theorem statsStep_losingTrades (acc : StatsAcc) (q : Position) :
    (statsStep acc q).losingTrades =
      if 0 < q.currentProfit then acc.losingTrades else acc.losingTrades + 1 := by
  simp only [statsStep]
  split_ifs <;> rfl

theorem statsStep_totalLoss (acc : StatsAcc) (q : Position) :
    (statsStep acc q).totalLoss =
      if 0 < q.currentProfit then acc.totalLoss else acc.totalLoss + |q.currentProfit| := by
  simp only [statsStep]
  split_ifs <;> rfl

theorem foldl_statsStep_winning (l : List Position) :
    ∀ acc : StatsAcc, (l.foldl statsStep acc).winningTrades =
      acc.winningTrades + l.countP (fun q => decide (0 < q.currentProfit)) := by
  induction l with
  | nil => intro acc; simp
  | cons q rest ih =>
    intro acc
    rw [List.foldl_cons, ih, List.countP_cons]
    rw [statsStep_winningTrades]
    by_cases h : 0 < q.currentProfit <;> simp [h] <;> omega

/-- Appending one more closed trade (the last conjunct of C10 quantifies the
stats over this enlarged history). -/
def appendClosed (t : PositionTracker) (p : Position) : PositionTracker :=
  { t with closedPositions := t.closedPositions ++ [p] }

/-- Claim C10: a closed position with profit exactly 0 is counted as a losing
trade (losingTrades grows by one, totalLoss and winningTrades unchanged),
and winningTrades — hence winRate = winningTrades/totalTrades*100 — counts
only strictly positive profits. -/
theorem claim_C10 (t : PositionTracker) (p : Position) (hp : p.currentProfit = 0) :
    (getPerformanceStats (appendClosed t p)).losingTrades =
      (getPerformanceStats t).losingTrades + 1 ∧
    (getPerformanceStats (appendClosed t p)).totalLoss =
      (getPerformanceStats t).totalLoss ∧
    (getPerformanceStats (appendClosed t p)).winningTrades =
      (getPerformanceStats t).winningTrades ∧
    (getPerformanceStats (appendClosed t p)).winningTrades =
      (appendClosed t p).closedPositions.countP (fun q => decide (0 < q.currentProfit)) ∧
    (getPerformanceStats (appendClosed t p)).winRate =
      ((getPerformanceStats (appendClosed t p)).winningTrades : ℚ) /
        ((appendClosed t p).closedPositions.length) * 100 := by
  have hnotpos : ¬ 0 < p.currentProfit := by rw [hp]; norm_num
  have hlen2 : (appendClosed t p).closedPositions.length = t.closedPositions.length + 1 := by
    simp [appendClosed]
  have hne : ¬ (appendClosed t p).closedPositions.length = 0 := by
    rw [hlen2]; omega
  have hfold : (appendClosed t p).closedPositions.foldl statsStep ⟨0, 0, 0, 0, 0, 0, 0⟩ =
      statsStep (t.closedPositions.foldl statsStep ⟨0, 0, 0, 0, 0, 0, 0⟩) p := by
    simp [appendClosed, List.foldl_append]
  refine ⟨?_, ?_, ?_, ?_, ?_⟩
  · by_cases hbase : t.closedPositions.length = 0
    · have hnil : t.closedPositions = [] := List.length_eq_zero.mp hbase
      simp [getPerformanceStats, hne, hbase, hfold, hnil, statsStep_losingTrades, hnotpos]
    · simp [getPerformanceStats, hne, hbase, hfold, statsStep_losingTrades, hnotpos]
  · by_cases hbase : t.closedPositions.length = 0
    · have hnil : t.closedPositions = [] := List.length_eq_zero.mp hbase
      simp [getPerformanceStats, hne, hbase, hfold, hnil, statsStep_totalLoss, hnotpos, hp]
    · simp [getPerformanceStats, hne, hbase, hfold, statsStep_totalLoss, hnotpos, hp]
  · by_cases hbase : t.closedPositions.length = 0
    · have hnil : t.closedPositions = [] := List.length_eq_zero.mp hbase
      simp [getPerformanceStats, hne, hbase, hfold, hnil, statsStep_winningTrades, hnotpos]
    · simp [getPerformanceStats, hne, hbase, hfold, statsStep_winningTrades, hnotpos]
  · simp only [getPerformanceStats, if_neg hne]
    rw [foldl_statsStep_winning]
    simp
  · have hpos : 0 < (appendClosed t p).closedPositions.length := by omega
    simp [getPerformanceStats, hne, hpos]

/-- A closed trade with profit exactly 0 for the C10 witness. -/
def c10P : Position :=
  { pair := ethPair, entryPrice := 100, volume := 1, entryTime := 0, stopLoss := 90,
    profitTarget := 120, pyramidLevels := [], totalVolume := 1, pyramidLevelsActivated := 0,
    currentProfit := 0, profitPct := 0, peakProfit := 0, erosionCap := 0.008,
    erosionUsed := 0, aiReasoning := [], adx := 0, regime := Regime.moderate,
    status := PosStatus.closed, exitPrice := some 100, exitTime := some 60000,
    exitReason := some ethPair }

theorem claim_C10_witness :
    (getPerformanceStats (appendClosed emptyTracker c10P)).losingTrades =
      (getPerformanceStats emptyTracker).losingTrades + 1 ∧
    (getPerformanceStats (appendClosed emptyTracker c10P)).totalLoss =
      (getPerformanceStats emptyTracker).totalLoss ∧
    (getPerformanceStats (appendClosed emptyTracker c10P)).winningTrades =
      (getPerformanceStats emptyTracker).winningTrades ∧
    (getPerformanceStats (appendClosed emptyTracker c10P)).winningTrades =
      (appendClosed emptyTracker c10P).closedPositions.countP
        (fun q => decide (0 < q.currentProfit)) ∧
    (getPerformanceStats (appendClosed emptyTracker c10P)).winRate =
      ((getPerformanceStats (appendClosed emptyTracker c10P)).winningTrades : ℚ) /
        ((appendClosed emptyTracker c10P).closedPositions.length) * 100 :=
  claim_C10 emptyTracker c10P rfl

end NexusBinance
